import Mathlib

/-!
Shallow embedding of the behavioral-biometrics scoring pipeline
(`ml/preprocessing.py`, `ml/model.py`, `ml/inference.py`) and proofs of
the specification claims about it.

Numbers that the Python code handles as floats are modelled as exact
rationals; the Euclidean distance of the historical-consistency scorer
(`np.linalg.norm`, a square root) is modelled in the reals.
-/

namespace Parachain

/-- Raw behavioral feature map (`features: Dict[str, Any]`).  Each of the
five named keys may be absent; `features.get(name, 0)` supplies 0 then. -/
structure RawFeatures where
  typing_speed_wpm : Option ℚ
  avg_key_hold_time_ms : Option ℚ
  avg_transition_time_ms : Option ℚ
  error_rate_percent : Option ℚ
  activity_hour_preference : Option ℚ
deriving DecidableEq

/-- Python `np.clip(value, lo, hi)`: values below `lo` go to `lo`, above `hi` to `hi`
(the upper bound is applied last). -/
def npClip (v lo hi : ℚ) : ℚ := min (max v lo) hi

/-- Function `FeaturePreprocessor.process_features`: extract the five named features in
their fixed order, defaulting missing keys to 0 and clipping each to the
bounds of `feature_mins` / `feature_maxs`. -/
def process_features (f : RawFeatures) : List ℚ :=
  [ npClip (f.typing_speed_wpm.getD 0) 10 200,
    npClip (f.avg_key_hold_time_ms.getD 0) 20 500,
    npClip (f.avg_transition_time_ms.getD 0) 20 400,
    npClip (f.error_rate_percent.getD 0) 0 50,
    npClip (f.activity_hour_preference.getD 0) 0 23 ]

/-- Method `BehavioralInferenceEngine._add_derived_features`: append the
speed-accuracy ratio `typing_speed / (error_rate + 1)` and the rhythm ratio
`key_hold_time / (transition_time + 1)` to the processed feature list.
The Python code indexes `features[0] .. features[3]`; it is only ever called
on the 5-element output of `process_features`, where `getD` agrees with it. -/
def add_derived_features (features : List ℚ) : List ℚ :=
  let typing_speed := features.getD 0 0
  let key_hold_time := features.getD 1 0
  let transition_time := features.getD 2 0
  let error_rate := features.getD 3 0
  features ++ [typing_speed / (error_rate + 1), key_hold_time / (transition_time + 1)]

/-- A loaded PyTorch model: a declared input dimension (the `in_features` of
the first `nn.Linear`), the forward function, and the gradient of the scalar
output with respect to the input (`feature_tensor.grad` after `backward()`).
The forward and gradient functions stand for the externally trained weights. -/
structure TorchModel where
  inputDim : ℕ
  run : List ℚ → ℚ
  grad : List ℚ → List ℚ

/-- Applying a PyTorch module to an input tensor: `nn.Linear` raises a
shape-mismatch `RuntimeError` unless the input's last dimension equals
`inputDim`; modelled as `none` on mismatch. -/
def TorchModel.apply (m : TorchModel) (v : List ℚ) : Option ℚ :=
  if v.length = m.inputDim then some (m.run v) else none

/-- The 7 fixed feature names of `_calculate_feature_importance`. -/
def feature_names : List String :=
  [ "typing_speed", "key_hold_time", "transition_time", "error_rate",
    "activity_hour", "speed_accuracy_ratio", "rhythm_ratio" ]

/-- Method `BehavioralInferenceEngine._calculate_feature_importance`: absolute input
gradients, normalized to sum to 1 when the total is positive, zipped with the
fixed feature names.  The forward/backward pass fails on a shape mismatch the
same way `TorchModel.apply` does. -/
def calc_feature_importance (m : TorchModel) (v : List ℚ) : Option (List (String × ℚ)) :=
  if v.length = m.inputDim then
    let gradients := (m.grad v).map (fun g => |g|)
    let total := gradients.sum
    let normalized := if 0 < total then gradients.map (fun g => g / total) else gradients
    some (feature_names.zip normalized)
  else none

/-- Squared Euclidean distance between two equal-length vectors. -/
def distSq (v w : List ℚ) : ℚ := (List.zipWith (fun a b => (a - b) ^ 2) v w).sum

/-- NumPy `np.mean(vectors, axis=0)`: coordinate-wise mean of a non-empty list of
equal-length vectors. -/
def meanVec (vs : List (List ℚ)) : List ℚ :=
  match vs with
  | [] => []
  | v :: _ =>
      (List.range v.length).map
        (fun i => (vs.map (fun w => w.getD i 0)).sum / (vs.length : ℚ))

/-- Method `BehavioralInferenceEngine._compare_with_historical`: normalize each
historical pattern through the same pipeline, take the centroid, and convert
the Euclidean distance of the current vector from it into a similarity via
`max(0, 100 - (distance / 100) * 100)`. -/
noncomputable def compare_with_historical
    (current_features : List ℚ) (historical_patterns : List RawFeatures) : ℝ :=
  if historical_patterns = [] then 50
  else
    let historical_vectors :=
      historical_patterns.map (fun p => add_derived_features (process_features p))
    let mean_historical := meanVec historical_vectors
    let distance : ℝ := Real.sqrt ((distSq current_features mean_historical : ℚ) : ℝ)
    max 0 (100 - distance / 100 * 100)

/-- Python `int()` on a rational-valued float: truncation toward zero. -/
def pyInt (q : ℚ) : ℤ := if q < 0 then ⌈q⌉ else ⌊q⌋

/-- Python `int()` on a real-valued float: truncation toward zero. -/
noncomputable def pyIntR (x : ℝ) : ℤ := if x < 0 then ⌈x⌉ else ⌊x⌋

/-- The engine's `self.stats` dictionary. -/
structure EngineStats where
  total_predictions : ℕ
  total_inference_time : ℚ
  confidence_scores : List ℤ
deriving DecidableEq

/-- The stats as `__init__` creates them. -/
def initStats : EngineStats :=
  { total_predictions := 0, total_inference_time := 0, confidence_scores := [] }

/-- Method `BehavioralInferenceEngine._update_stats`: increment the counter, add the
elapsed time, append the confidence, and pop the oldest score once the list
exceeds 1000 entries. -/
def update_stats (s : EngineStats) (confidence : ℤ) (inference_time : ℚ) : EngineStats :=
  let scores := s.confidence_scores ++ [confidence]
  { total_predictions := s.total_predictions + 1
    total_inference_time := s.total_inference_time + inference_time
    confidence_scores := if 1000 < scores.length then scores.drop 1 else scores }

/-- Python `round(x, 2)` (exact at non-ties, which is all this file needs). -/
def round2 (q : ℚ) : ℚ := (round (q * 100) : ℚ) / 100

/-- NumPy `np.mean` of a list of integer scores, as a rational. -/
def listMean (l : List ℤ) : ℚ := (l.sum : ℚ) / (l.length : ℚ)

/-- The snapshot returned by `get_stats`. -/
structure StatsSnapshot where
  total_predictions : ℕ
  avg_inference_time_ms : ℚ
  avg_confidence : ℚ
deriving DecidableEq

/-- Method `BehavioralInferenceEngine.get_stats`. -/
def get_stats (s : EngineStats) : StatsSnapshot :=
  if s.total_predictions = 0 then
    { total_predictions := 0, avg_inference_time_ms := 0, avg_confidence := 0 }
  else
    { total_predictions := s.total_predictions
      avg_inference_time_ms := round2 (s.total_inference_time / (s.total_predictions : ℚ) * 1000)
      avg_confidence := round2 (listMean s.confidence_scores) }

/-- A `BehavioralInferenceEngine` instance: the loaded model, the optional
fitted scaler, the optional anomaly detector, and the rolling stats. -/
structure Engine where
  model : TorchModel
  scaler : Option (List ℚ → List ℚ)
  anomalyDetector : Option (List ℚ → ℚ)
  stats : EngineStats

/-- The `input_dim` default of `BehavioralAuthNN.__init__`. -/
def behavioralAuthNNDefaultInputDim : ℕ := 6

/-- Constructor `BehavioralInferenceEngine.__init__` with `scaler_path=None`: it
constructs `BehavioralAuthNN()` with the default input dimension, loads the
external weights (`run`/`grad`), sets no scaler, sets `anomaly_detector`
to `None`, and zeroes the stats. -/
def initEngine (run : List ℚ → ℚ) (grad : List ℚ → List ℚ) : Engine :=
  { model := { inputDim := behavioralAuthNNDefaultInputDim, run := run, grad := grad }
    scaler := none
    anomalyDetector := none
    stats := initStats }

/-- The dictionary returned by `predict`. -/
structure PredictionResult where
  confidence_score : ℤ
  anomaly_score : ℚ
  feature_importance : List (String × ℚ)

/-- Method `BehavioralInferenceEngine.predict`: preprocess, add derived features,
optionally scale, run the model (`int(logit*100)`), compute the anomaly score
(0.0 when no detector is configured), compute feature importance, fuse with
the historical-consistency score when a non-empty history is supplied
(`int(confidence*0.7 + historical*0.3)`; Python's `if historical_patterns:`
is false for both `None` and `[]`), and update the stats with the final
confidence and the elapsed wall time (passed here as `inference_time`).
A shape mismatch in a model pass propagates as `none`. -/
noncomputable def predict (e : Engine) (features : RawFeatures)
    (historical_patterns : Option (List RawFeatures)) (inference_time : ℚ) :
    Option (PredictionResult × Engine) :=
  let processed_features := add_derived_features (process_features features)
  let feature_tensor :=
    match e.scaler with
    | some transform => transform processed_features
    | none => processed_features
  match e.model.apply feature_tensor with
  | none => none
  | some confidence_logit =>
    let confidence0 : ℤ := pyInt (confidence_logit * 100)
    let anomaly_score : ℚ :=
      match e.anomalyDetector with
      | some det => det feature_tensor
      | none => 0
    match calc_feature_importance e.model feature_tensor with
    | none => none
    | some feature_importance =>
      let confidence_score : ℤ :=
        match historical_patterns with
        | some pats =>
            if pats = [] then confidence0
            else pyIntR ((confidence0 : ℝ) * (7 / 10) +
              compare_with_historical processed_features pats * (3 / 10))
        | none => confidence0
      some ( { confidence_score := confidence_score
               anomaly_score := anomaly_score
               feature_importance := feature_importance },
             { e with stats := update_stats e.stats confidence_score inference_time } )

/-- The confidence component of a prediction, when it succeeds. -/
noncomputable def predConfidence (e : Engine) (features : RawFeatures)
    (historical_patterns : Option (List RawFeatures)) (inference_time : ℚ) : Option ℤ :=
  (predict e features historical_patterns inference_time).map
    (fun p => p.1.confidence_score)

/-- A sequence of `predict` calls against one engine instance, threading the
engine state; a failed call leaves the engine unchanged (the exception
propagates past the stats update). -/
noncomputable def run_all :
    Engine → List (RawFeatures × Option (List RawFeatures) × ℚ) → List PredictionResult
  | _, [] => []
  | e, (r, h, t) :: rest =>
    match predict e r h t with
    | none => run_all e rest
    | some (res, e2) => res :: run_all e2 rest

/-- The worked example input of the spec. -/
def exampleRaw : RawFeatures :=
  { typing_speed_wpm := some 65
    avg_key_hold_time_ms := some 120
    avg_transition_time_ms := some 85
    error_rate_percent := some 3
    activity_hour_preference := some 14 }

/-- A stub model with input dimension 7 (the dimension the repository's own
tests construct), constant forward output `c`, and a fixed gradient. -/
def constModel7 (c : ℚ) : TorchModel :=
  { inputDim := 7, run := fun _ => c, grad := fun _ => [1, 0, 0, 0, 0, 0, 0] }

/-- A fresh engine around `constModel7 c`. -/
def engine7 (c : ℚ) : Engine :=
  { model := constModel7 c, scaler := none, anomalyDetector := none, stats := initStats }

/-! ## Helper lemmas -/

theorem npClip_le_hi (v lo hi : ℚ) : npClip v lo hi ≤ hi := min_le_right _ _

theorem lo_le_npClip (v : ℚ) {lo hi : ℚ} (h : lo ≤ hi) : lo ≤ npClip v lo hi :=
  le_min (le_max_right _ _) h

theorem map_getD_range (v : List ℚ) :
    (List.range v.length).map (fun i => v.getD i 0) = v := by
  induction v with
  | nil => simp
  | cons a t ih =>
      rw [List.length_cons, List.range_succ_eq_map, List.map_cons, List.map_map]
      simp only [List.getD_cons_zero, Function.comp_def, List.getD_cons_succ]
      rw [ih]

theorem meanVec_singleton (v : List ℚ) : meanVec [v] = v := by
  simp only [meanVec, List.map_cons, List.map_nil, List.sum_cons, List.sum_nil,
    List.length_singleton, Nat.cast_one, add_zero, div_one]
  exact map_getD_range v

theorem distSq_self (v : List ℚ) : distSq v v = 0 := by
  induction v with
  | nil => rfl
  | cons a t ih =>
      simp only [distSq, List.zipWith_cons_cons, List.sum_cons, sub_self] at ih ⊢
      rw [ih]
      ring

theorem compare_self_single (r : RawFeatures) :
    compare_with_historical (add_derived_features (process_features r)) [r] = 100 := by
  unfold compare_with_historical
  simp only [List.cons_ne_self, if_false, List.map_cons, List.map_nil,
    meanVec_singleton, distSq_self, Rat.cast_zero, Real.sqrt_zero, reduceCtorEq]
  norm_num

/-! ## Claims -/

/-- C6: preprocessing never fails: missing keys default to 0, each of the 5
named values is clipped into its documented [min,max] bound, the processed
list has length 5 and the feature vector length 7; in particular the
all-missing map yields the clipped defaults and `typing_speed_wpm=500` is
clipped to 200. -/
theorem c6_normalize_clips_and_lengths (r : RawFeatures) :
    (process_features r).length = 5 ∧
    (add_derived_features (process_features r)).length = 7 ∧
    (10 ≤ (process_features r).getD 0 0 ∧ (process_features r).getD 0 0 ≤ 200) ∧
    (20 ≤ (process_features r).getD 1 0 ∧ (process_features r).getD 1 0 ≤ 500) ∧
    (20 ≤ (process_features r).getD 2 0 ∧ (process_features r).getD 2 0 ≤ 400) ∧
    (0 ≤ (process_features r).getD 3 0 ∧ (process_features r).getD 3 0 ≤ 50) ∧
    (0 ≤ (process_features r).getD 4 0 ∧ (process_features r).getD 4 0 ≤ 23) ∧
    process_features
      { typing_speed_wpm := none, avg_key_hold_time_ms := none,
        avg_transition_time_ms := none, error_rate_percent := none,
        activity_hour_preference := none } = [10, 20, 20, 0, 0] ∧
    (process_features { exampleRaw with typing_speed_wpm := some 500 }).getD 0 0 = 200 := by
  refine ⟨rfl, rfl, ?_, ?_, ?_, ?_, ?_, by decide, by decide⟩ <;>
    simp only [process_features, List.getD_cons_zero, List.getD_cons_succ] <;>
    exact ⟨lo_le_npClip _ (by norm_num), npClip_le_hi _ _ _⟩

/-- C7: the two derived features are `typing_speed/(error_rate+1)` and
`key_hold_time/(transition_time+1)` computed from the clipped values, with
both denominators positive (so `error_rate=0` / `transition_time=0` cause no
division error), and on the spec's example input the resulting vector is
`[65, 120, 85, 3, 14, 65/4, 120/86]`. -/
theorem c7_derived_features (r : RawFeatures) :
    add_derived_features (process_features r) =
      process_features r ++
        [ (process_features r).getD 0 0 / ((process_features r).getD 3 0 + 1),
          (process_features r).getD 1 0 / ((process_features r).getD 2 0 + 1) ] ∧
    0 < (process_features r).getD 3 0 + 1 ∧
    0 < (process_features r).getD 2 0 + 1 ∧
    add_derived_features (process_features exampleRaw) =
      [65, 120, 85, 3, 14, 65 / 4, 120 / 86] := by
  refine ⟨rfl, ?_, ?_, ?_⟩
  · have h : (0 : ℚ) ≤ (process_features r).getD 3 0 := by
      simp only [process_features, List.getD_cons_zero, List.getD_cons_succ]
      exact lo_le_npClip _ (by norm_num)
    linarith
  · have h : (20 : ℚ) ≤ (process_features r).getD 2 0 := by
      simp only [process_features, List.getD_cons_zero, List.getD_cons_succ]
      exact lo_le_npClip _ (by norm_num)
    linarith
  · simp only [add_derived_features, process_features, exampleRaw, npClip,
      Option.getD_some, List.getD_cons_zero, List.getD_cons_succ]
    norm_num [min_def, max_def]

/-- C1: the claim says model evaluation inside `predict` never fails on the
7-element vector normalization produces; in the code `__init__` constructs
`BehavioralAuthNN()` with its default `input_dim = 6`, so the first linear
layer rejects the 7-element vector and every `predict` call fails (the
repository's own tests build the model with `input_dim=7`). -/
theorem c1_predict_fails_on_default_model (run : List ℚ → ℚ)
    (grad : List ℚ → List ℚ) (r : RawFeatures)
    (h : Option (List RawFeatures)) (t : ℚ) :
    (add_derived_features (process_features r)).length = 7 ∧
    (initEngine run grad).model.inputDim = 6 ∧
    predict (initEngine run grad) r h t = none := by
  refine ⟨rfl, rfl, ?_⟩
  have hlen : (add_derived_features (process_features r)).length = 7 := rfl
  simp [predict, initEngine, TorchModel.apply, behavioralAuthNNDefaultInputDim, hlen]

/-- Evaluation of `predConfidence` with no history on an engine whose model
accepts the 7-element vector (the repository's tests build the model with
`input_dim=7`) and that has no scaler. -/
theorem predConfidence_no_history (m : TorchModel) (hm : m.inputDim = 7)
    (ad : Option (List ℚ → ℚ)) (s : EngineStats) (r : RawFeatures) (t : ℚ) :
    predConfidence ⟨m, none, ad, s⟩ r none t =
      some (pyInt (m.run (add_derived_features (process_features r)) * 100)) := by
  have hv : (add_derived_features (process_features r)).length = m.inputDim := by
    rw [hm]; rfl
  simp [predConfidence, predict, TorchModel.apply, calc_feature_importance, hv]

/-- Evaluation of `predConfidence` with a non-empty history on an engine
whose model accepts the 7-element vector and that has no scaler: the 70/30
fusion with the historical-consistency score, truncated by `int()`. -/
theorem predConfidence_with_history (m : TorchModel) (hm : m.inputDim = 7)
    (ad : Option (List ℚ → ℚ)) (s : EngineStats) (r : RawFeatures)
    (pats : List RawFeatures) (hne : pats ≠ []) (t : ℚ) :
    predConfidence ⟨m, none, ad, s⟩ r (some pats) t =
      some (pyIntR
        ((pyInt (m.run (add_derived_features (process_features r)) * 100) : ℝ) * (7 / 10) +
          compare_with_historical (add_derived_features (process_features r)) pats *
            (3 / 10))) := by
  have hv : (add_derived_features (process_features r)).length = m.inputDim := by
    rw [hm]; rfl
  simp [predConfidence, predict, TorchModel.apply, calc_feature_importance, hv, hne]

/-- Function `pyInt` is the floor on nonnegative arguments. -/
theorem pyInt_eq_floor {q : ℚ} (h : 0 ≤ q) : pyInt q = ⌊q⌋ := by
  simp [pyInt, not_lt.mpr h]

/-- Function `pyIntR` is the floor on nonnegative arguments. -/
theorem pyIntR_eq_floor {x : ℝ} (h : 0 ≤ x) : pyIntR x = ⌊x⌋ := by
  simp [pyIntR, not_lt.mpr h]

/-- C2 counterexample: with a (spec-conforming) model whose score on the
example vector is 0.506, the code returns `int(0.506*100) = 50` while the
claimed `round(score*100)` is 51. -/
theorem c2_counterexample :
    predConfidence (engine7 (253 / 500)) exampleRaw none 0 = some 50 ∧
    round ((253 / 500 : ℚ) * 100) = 51 ∧ (50 : ℤ) ≠ 51 := by
  refine ⟨?_, ?_, by norm_num⟩
  · rw [show engine7 (253 / 500) = ⟨constModel7 (253 / 500), none, none, initStats⟩ from rfl,
      predConfidence_no_history _ rfl _ _ _ _]
    have : pyInt ((constModel7 (253 / 500)).run
        (add_derived_features (process_features exampleRaw)) * 100) = 50 := by
      rw [pyInt_eq_floor (by norm_num [constModel7])]
      rw [Int.floor_eq_iff]
      norm_num [constModel7]
    rw [this]
  · rw [round_eq, Int.floor_eq_iff]
    norm_num

/-- C2 (amended): with no history the returned confidence is
`int(score*100)`, i.e. the floor (truncation toward zero) of `score*100`
rather than its rounding, and it is an integer in [0,100]. -/
theorem c2_confidence_is_truncated_score (m : TorchModel) (hm : m.inputDim = 7)
    (hs : ∀ v, 0 ≤ m.run v ∧ m.run v ≤ 1) (s : EngineStats) (r : RawFeatures) (t : ℚ) :
    predConfidence ⟨m, none, none, s⟩ r none t =
      some (⌊m.run (add_derived_features (process_features r)) * 100⌋) ∧
    0 ≤ ⌊m.run (add_derived_features (process_features r)) * 100⌋ ∧
    ⌊m.run (add_derived_features (process_features r)) * 100⌋ ≤ 100 := by
  obtain ⟨h0, h1⟩ := hs (add_derived_features (process_features r))
  refine ⟨?_, ?_, ?_⟩
  · rw [predConfidence_no_history m hm none s r t,
      pyInt_eq_floor (by positivity)]
  · exact Int.floor_nonneg.mpr (by positivity)
  · calc ⌊m.run (add_derived_features (process_features r)) * 100⌋
        ≤ ⌊(100 : ℚ)⌋ := Int.floor_le_floor (by linarith)
      _ = 100 := by norm_num

/-- C2 witness: the amended statement instantiated with a constant-score
model on the spec's example input. -/
theorem c2_confidence_is_truncated_score_witness :
    predConfidence ⟨constModel7 (1 / 2), none, none, initStats⟩ exampleRaw none 0 =
      some (⌊(constModel7 (1 / 2)).run
        (add_derived_features (process_features exampleRaw)) * 100⌋) ∧
    0 ≤ ⌊(constModel7 (1 / 2)).run
        (add_derived_features (process_features exampleRaw)) * 100⌋ ∧
    ⌊(constModel7 (1 / 2)).run
        (add_derived_features (process_features exampleRaw)) * 100⌋ ≤ 100 :=
  c2_confidence_is_truncated_score (constModel7 (1 / 2)) rfl
    (fun _ => by norm_num [constModel7]) initStats exampleRaw 0

/-- Method `predict` treats `historical_patterns = some []` exactly like `none`:
Python's `if historical_patterns:` is false for both. -/
theorem predict_empty_history_eq_none (e : Engine) (r : RawFeatures) (t : ℚ) :
    predict e r (some []) t = predict e r none t := rfl

/-- C3 counterexample: with a model scoring 0.51 and a single historical
pattern identical to the current one (consistency 100), the code returns
`int(51*0.7 + 100*0.3) = int(65.7) = 65` while the claimed
`round(51*0.7 + 100*0.3)` is 66. -/
theorem c3_counterexample :
    predConfidence (engine7 (51 / 100)) exampleRaw (some [exampleRaw]) 0 = some 65 ∧
    compare_with_historical (add_derived_features (process_features exampleRaw))
      [exampleRaw] = 100 ∧
    round ((51 : ℝ) * (7 / 10) + 100 * (3 / 10)) = 66 := by
  have hcomp := compare_self_single exampleRaw
  refine ⟨?_, hcomp, ?_⟩
  · rw [show engine7 (51 / 100) = ⟨constModel7 (51 / 100), none, none, initStats⟩ from rfl,
      predConfidence_with_history _ rfl _ _ _ _ (List.cons_ne_nil _ _) _, hcomp]
    have h51 : pyInt ((constModel7 (51 / 100)).run
        (add_derived_features (process_features exampleRaw)) * 100) = 51 := by
      rw [pyInt_eq_floor (by norm_num [constModel7])]
      rw [Int.floor_eq_iff]
      norm_num [constModel7]
    rw [h51]
    have hval : (((51 : ℤ) : ℝ) * (7 / 10) + 100 * (3 / 10)) = 657 / 10 := by
      push_cast
      ring
    rw [hval, pyIntR_eq_floor (by norm_num)]
    have : ⌊(657 / 10 : ℝ)⌋ = 65 := by
      rw [Int.floor_eq_iff]
      norm_num
    rw [this]
  · rw [round_eq, Int.floor_eq_iff]
    norm_num

/-- C3 (amended): with any non-empty history, the returned confidence is the
70/30 fusion of the model confidence with the historical-consistency score,
truncated by `int()` (not rounded). -/
theorem c3_fusion_truncated (m : TorchModel) (hm : m.inputDim = 7)
    (ad : Option (List ℚ → ℚ)) (s : EngineStats) (r : RawFeatures)
    (pats : List RawFeatures) (hne : pats ≠ []) (t : ℚ) :
    predConfidence ⟨m, none, ad, s⟩ r (some pats) t =
      some (pyIntR
        ((pyInt (m.run (add_derived_features (process_features r)) * 100) : ℝ) * (7 / 10) +
          compare_with_historical (add_derived_features (process_features r)) pats *
            (3 / 10))) :=
  predConfidence_with_history m hm ad s r pats hne t

/-- C3 witness: the amended fusion equation instantiated on the example
input with a single historical pattern. -/
theorem c3_fusion_truncated_witness :
    predConfidence ⟨constModel7 (1 / 2), none, none, initStats⟩ exampleRaw
        (some [exampleRaw]) 0 =
      some (pyIntR
        ((pyInt ((constModel7 (1 / 2)).run
            (add_derived_features (process_features exampleRaw)) * 100) : ℝ) * (7 / 10) +
          compare_with_historical (add_derived_features (process_features exampleRaw))
            [exampleRaw] * (3 / 10))) :=
  c3_fusion_truncated (constModel7 (1 / 2)) rfl none initStats exampleRaw
    [exampleRaw] (List.cons_ne_nil _ _) 0

/-- C4 counterexample: with a model scoring 0, both the `history=None` and
`history=[]` calls return confidence 0, while the claimed fusion formula with
the neutral value 50 would give `round(0*0.7 + 50*0.3) = 15`. -/
theorem c4_counterexample :
    predConfidence (engine7 0) exampleRaw none 0 = some 0 ∧
    predConfidence (engine7 0) exampleRaw (some []) 0 = some 0 ∧
    round ((0 : ℚ) * (7 / 10) + 50 * (3 / 10)) = 15 ∧ (0 : ℤ) ≠ 15 := by
  have h0 : predConfidence (engine7 0) exampleRaw none 0 = some 0 := by
    rw [show engine7 0 = ⟨constModel7 0, none, none, initStats⟩ from rfl,
      predConfidence_no_history _ rfl _ _ _ _]
    have : pyInt ((constModel7 0).run
        (add_derived_features (process_features exampleRaw)) * 100) = 0 := by
      rw [pyInt_eq_floor (by norm_num [constModel7])]
      rw [Int.floor_eq_iff]
      norm_num [constModel7]
    rw [this]
  refine ⟨h0, ?_, ?_, by norm_num⟩
  · rw [predConfidence, predict_empty_history_eq_none]
    exact h0
  · rw [round_eq, Int.floor_eq_iff]
    norm_num

/-- C4 (amended): `history=None` and `history=[]` yield identical results,
and in both cases the fusion step is skipped entirely: the confidence is the
unfused `int(score*100)` (the neutral-50 fusion formula is never applied). -/
theorem c4_none_eq_empty_no_fusion (m : TorchModel) (hm : m.inputDim = 7)
    (ad : Option (List ℚ → ℚ)) (s : EngineStats) (r : RawFeatures) (t : ℚ) :
    predict ⟨m, none, ad, s⟩ r none t = predict ⟨m, none, ad, s⟩ r (some []) t ∧
    predConfidence ⟨m, none, ad, s⟩ r none t =
      some (pyInt (m.run (add_derived_features (process_features r)) * 100)) :=
  ⟨(predict_empty_history_eq_none _ _ _).symm,
    predConfidence_no_history m hm ad s r t⟩

/-- C4 witness: the amended statement instantiated on the example input. -/
theorem c4_none_eq_empty_no_fusion_witness :
    predict ⟨constModel7 (1 / 2), none, none, initStats⟩ exampleRaw none 0 =
      predict ⟨constModel7 (1 / 2), none, none, initStats⟩ exampleRaw (some []) 0 ∧
    predConfidence ⟨constModel7 (1 / 2), none, none, initStats⟩ exampleRaw none 0 =
      some (pyInt ((constModel7 (1 / 2)).run
        (add_derived_features (process_features exampleRaw)) * 100)) :=
  c4_none_eq_empty_no_fusion (constModel7 (1 / 2)) rfl none initStats exampleRaw 0

/-- C5: when the no-history confidence is below the maximum, adding a single
historical pattern identical to the current features (perfect consistency,
historical = 100) yields a confidence at least as large as without history. -/
theorem c5_identical_history_boosts (m : TorchModel) (hm : m.inputDim = 7)
    (hs : ∀ v, 0 ≤ m.run v ∧ m.run v ≤ 1) (s s2 : EngineStats)
    (r : RawFeatures) (t t2 : ℚ)
    (hlt : pyInt (m.run (add_derived_features (process_features r)) * 100) < 100) :
    ∃ c0 c1 : ℤ,
      predConfidence ⟨m, none, none, s⟩ r none t = some c0 ∧
      predConfidence ⟨m, none, none, s2⟩ r (some [r]) t2 = some c1 ∧
      c0 ≤ c1 := by
  obtain ⟨h0, h1⟩ := hs (add_derived_features (process_features r))
  have hq0 : 0 ≤ m.run (add_derived_features (process_features r)) * 100 := by positivity
  refine ⟨_, _, predConfidence_no_history m hm none s r t,
    predConfidence_with_history m hm none s2 r [r] (List.cons_ne_nil _ _) t2, ?_⟩
  rw [compare_self_single r]
  have hc0 : (0 : ℤ) ≤ pyInt (m.run (add_derived_features (process_features r)) * 100) := by
    rw [pyInt_eq_floor hq0]
    exact Int.floor_nonneg.mpr hq0
  have hc100 : pyInt (m.run (add_derived_features (process_features r)) * 100) ≤ 100 := by
    omega
  have hcast0 : (0 : ℝ) ≤
      (pyInt (m.run (add_derived_features (process_features r)) * 100) : ℝ) :=
    Int.cast_nonneg.mpr hc0
  have hcast100 :
      (pyInt (m.run (add_derived_features (process_features r)) * 100) : ℝ) ≤ 100 := by
    exact_mod_cast hc100
  rw [pyIntR_eq_floor (by linarith)]
  rw [Int.le_floor]
  linarith

/-- C5 witness: the boost inequality instantiated with a constant-score 0.5
model on the example input. -/
theorem c5_identical_history_boosts_witness :
    ∃ c0 c1 : ℤ,
      predConfidence ⟨constModel7 (1 / 2), none, none, initStats⟩ exampleRaw none 0 =
        some c0 ∧
      predConfidence ⟨constModel7 (1 / 2), none, none, initStats⟩ exampleRaw
        (some [exampleRaw]) 0 = some c1 ∧
      c0 ≤ c1 :=
  c5_identical_history_boosts (constModel7 (1 / 2)) rfl
    (fun _ => by norm_num [constModel7]) initStats initStats exampleRaw 0 0
    (by
      rw [pyInt_eq_floor (by norm_num [constModel7])]
      have : ((constModel7 (1 / 2)).run
          (add_derived_features (process_features exampleRaw)) * 100) = 50 := by
        norm_num [constModel7]
      rw [this]
      have : ⌊(50 : ℚ)⌋ = 50 := by
        rw [Int.floor_eq_iff]
        norm_num
      omega)

/-- Behavior of `_calculate_feature_importance` when the total sensitivity is positive:
the absolute gradients are divided by their sum. -/
theorem calc_feature_importance_pos (m : TorchModel) (v : List ℚ)
    (hv : v.length = m.inputDim)
    (hT : 0 < ((m.grad v).map (fun g => |g|)).sum) :
    calc_feature_importance m v =
      some (feature_names.zip (((m.grad v).map (fun g => |g|)).map
        (fun g => g / ((m.grad v).map (fun g => |g|)).sum))) := by
  simp [calc_feature_importance, hv, hT]

/-- Behavior of `_calculate_feature_importance` when the total sensitivity is not
positive: the absolute gradients are returned unnormalized. -/
theorem calc_feature_importance_nonpos (m : TorchModel) (v : List ℚ)
    (hv : v.length = m.inputDim)
    (hT : ¬ 0 < ((m.grad v).map (fun g => |g|)).sum) :
    calc_feature_importance m v =
      some (feature_names.zip ((m.grad v).map (fun g => |g|))) := by
  simp [calc_feature_importance, hv, hT]

theorem sum_map_div (l : List ℚ) (c : ℚ) :
    (l.map (fun g => g / c)).sum = l.sum / c := by
  induction l with
  | nil => simp
  | cons a t ih => simp [ih, add_div]

/-- C8: feature importance carries exactly the 7 fixed names in vector
order; the values sum to 1 whenever some gradient entry is nonzero, and are
all zero when the total absolute sensitivity is zero (no division by zero
ever happens). -/
theorem c8_feature_importance (m : TorchModel) (v : List ℚ)
    (hv : v.length = m.inputDim) (hg : (m.grad v).length = 7) :
    ∃ imp : List (String × ℚ),
      calc_feature_importance m v = some imp ∧
      imp.map Prod.fst = feature_names ∧
      imp.length = 7 ∧
      ((∃ g ∈ m.grad v, g ≠ 0) → (imp.map Prod.snd).sum = 1) ∧
      (((m.grad v).map (fun g => |g|)).sum = 0 → ∀ p ∈ imp, p.2 = 0) := by
  have habs : ∀ x ∈ (m.grad v).map (fun g => |g|), (0 : ℚ) ≤ x := by
    intro x hx
    obtain ⟨g, _, rfl⟩ := List.mem_map.mp hx
    exact abs_nonneg g
  have hlenabs : ((m.grad v).map (fun g => |g|)).length = 7 := by
    rw [List.length_map, hg]
  have hnames : feature_names.length = 7 := rfl
  by_cases hT : 0 < ((m.grad v).map (fun g => |g|)).sum
  · refine ⟨_, calc_feature_importance_pos m v hv hT, ?_, ?_, ?_, ?_⟩
    · exact List.map_fst_zip _ _ (by rw [hnames, List.length_map, hlenabs])
    · rw [List.length_zip, List.length_map, hlenabs, hnames]
      rfl
    · intro _
      rw [List.map_snd_zip _ _ (by rw [hnames, List.length_map, hlenabs]),
        sum_map_div, div_self (ne_of_gt hT)]
    · intro hzero
      exact absurd hzero (ne_of_gt hT)
  · refine ⟨_, calc_feature_importance_nonpos m v hv hT, ?_, ?_, ?_, ?_⟩
    · exact List.map_fst_zip _ _ (by rw [hnames, hlenabs])
    · rw [List.length_zip, hlenabs, hnames]
      rfl
    · intro ⟨g, hgmem, hgne⟩
      exfalso
      apply hT
      calc (0 : ℚ) < |g| := abs_pos.mpr hgne
        _ ≤ ((m.grad v).map (fun g => |g|)).sum :=
          List.single_le_sum habs _ (List.mem_map_of_mem _ hgmem)
    · intro hzero p hp
      have hsnd : p.2 ∈ (m.grad v).map (fun g => |g|) := (List.of_mem_zip hp).2
      obtain ⟨g, hgmem, hgeq⟩ := List.mem_map.mp hsnd
      have h0 : |g| = 0 := by
        by_contra hne
        have : (0 : ℚ) < |g| := lt_of_le_of_ne (abs_nonneg g) (Ne.symm hne)
        have hle : |g| ≤ ((m.grad v).map (fun g => |g|)).sum :=
          List.single_le_sum habs _ (List.mem_map_of_mem _ hgmem)
        rw [hzero] at hle
        linarith
      rw [← hgeq, h0]

/-- C8 witness: the importance properties instantiated with a model whose
gradient on the example vector is `[1,0,0,0,0,0,0]`. -/
theorem c8_feature_importance_witness :
    ∃ imp : List (String × ℚ),
      calc_feature_importance (constModel7 (1 / 2))
        (add_derived_features (process_features exampleRaw)) = some imp ∧
      imp.map Prod.fst = feature_names ∧
      imp.length = 7 ∧
      ((∃ g ∈ (constModel7 (1 / 2)).grad
          (add_derived_features (process_features exampleRaw)), g ≠ 0) →
        (imp.map Prod.snd).sum = 1) ∧
      ((((constModel7 (1 / 2)).grad
          (add_derived_features (process_features exampleRaw))).map
            (fun g => |g|)).sum = 0 →
        ∀ p ∈ imp, p.2 = 0) :=
  c8_feature_importance (constModel7 (1 / 2))
    (add_derived_features (process_features exampleRaw)) rfl rfl

/-- Every successful `predict` leaves the engine's stats equal to
`update_stats` applied to the old stats with the final confidence. -/
theorem predict_stats_map (e : Engine) (r : RawFeatures)
    (h : Option (List RawFeatures)) (t : ℚ) :
    (predict e r h t).map (fun p => p.2.stats) =
      (predict e r h t).map (fun p => update_stats e.stats p.1.confidence_score t) := by
  obtain ⟨m, sc, ad, st⟩ := e
  cases sc with
  | none =>
      cases hA : TorchModel.apply m (add_derived_features (process_features r)) with
      | none => simp [predict, hA]
      | some logit =>
          cases hI : calc_feature_importance m (add_derived_features (process_features r)) with
          | none => simp [predict, hA, hI]
          | some imp => simp [predict, hA, hI]
  | some tr =>
      cases hA : TorchModel.apply m (tr (add_derived_features (process_features r))) with
      | none => simp [predict, hA]
      | some logit =>
          cases hI : calc_feature_importance m (tr (add_derived_features (process_features r))) with
          | none => simp [predict, hA, hI]
          | some imp => simp [predict, hA, hI]

/-- C9: the statistics invariant: each prediction updates the stats exactly
once with its final confidence; the counter increments by one; the score
list stays bounded by 1000, dropping the oldest entry on overflow; the
snapshot reports the mean of the stored scores; and after three predictions
with confidences 80, 90, 70 from a fresh engine the snapshot shows
`avg_confidence = 80` and `total_predictions = 3`. -/
theorem c9_stats_invariant :
    (∀ (e : Engine) (r : RawFeatures) (h : Option (List RawFeatures)) (t : ℚ),
      (predict e r h t).map (fun p => p.2.stats) =
        (predict e r h t).map (fun p => update_stats e.stats p.1.confidence_score t)) ∧
    (∀ (s : EngineStats) (c : ℤ) (t : ℚ),
      (update_stats s c t).total_predictions = s.total_predictions + 1) ∧
    (∀ (s : EngineStats) (c : ℤ) (t : ℚ), s.confidence_scores.length ≤ 1000 →
      (update_stats s c t).confidence_scores.length ≤ 1000) ∧
    (∀ (s : EngineStats) (c : ℤ) (t : ℚ),
      1000 < (s.confidence_scores ++ [c]).length →
      (update_stats s c t).confidence_scores = (s.confidence_scores ++ [c]).drop 1) ∧
    (∀ s : EngineStats, s.total_predictions ≠ 0 →
      (get_stats s).avg_confidence = round2 (listMean s.confidence_scores)) ∧
    (∀ t1 t2 t3 : ℚ,
      (get_stats (update_stats (update_stats (update_stats initStats 80 t1) 90 t2)
        70 t3)).avg_confidence = 80 ∧
      (get_stats (update_stats (update_stats (update_stats initStats 80 t1) 90 t2)
        70 t3)).total_predictions = 3) := by
  refine ⟨predict_stats_map, fun s c t => rfl, ?_, ?_, ?_, ?_⟩
  · intro s c t hlen
    show (if 1000 < (s.confidence_scores ++ [c]).length
        then (s.confidence_scores ++ [c]).drop 1
        else s.confidence_scores ++ [c]).length ≤ 1000
    by_cases h1000 : 1000 < (s.confidence_scores ++ [c]).length
    · rw [if_pos h1000]
      simp only [List.length_drop, List.length_append, List.length_singleton]
      omega
    · rw [if_neg h1000]
      simp only [List.length_append, List.length_singleton] at h1000 ⊢
      omega
  · intro s c t h1000
    show (if 1000 < (s.confidence_scores ++ [c]).length
        then (s.confidence_scores ++ [c]).drop 1
        else s.confidence_scores ++ [c]) = (s.confidence_scores ++ [c]).drop 1
    rw [if_pos h1000]
  · intro s hs
    simp [get_stats, hs]
  · intro t1 t2 t3
    have hscores :
        (update_stats (update_stats (update_stats initStats 80 t1) 90 t2)
          70 t3).confidence_scores = [80, 90, 70] := by
      simp [update_stats, initStats]
    have htotal :
        (update_stats (update_stats (update_stats initStats 80 t1) 90 t2)
          70 t3).total_predictions = 3 := by
      simp [update_stats, initStats]
    constructor
    · rw [get_stats, if_neg (by rw [htotal]; norm_num), hscores]
      show round2 (listMean [80, 90, 70]) = 80
      rw [show listMean [80, 90, 70] = 80 by norm_num [listMean]]
      show (round ((80 : ℚ) * 100) : ℚ) / 100 = 80
      rw [show ((80 : ℚ) * 100) = ((8000 : ℤ) : ℚ) by norm_num, round_intCast]
      norm_num
    · rw [get_stats, if_neg (by rw [htotal]; norm_num)]
      exact htotal

/-- C9 witness: the invariant applied at concrete stats: one update from
fresh stats, the bounded-length step, the overflow drop, the snapshot mean,
and the 80/90/70 example. -/
theorem c9_stats_invariant_witness :
    (predict (engine7 (1 / 2)) exampleRaw none 0).map (fun p => p.2.stats) =
      (predict (engine7 (1 / 2)) exampleRaw none 0).map
        (fun p => update_stats (engine7 (1 / 2)).stats p.1.confidence_score 0) ∧
    (update_stats initStats 80 0).total_predictions = initStats.total_predictions + 1 ∧
    (update_stats initStats 80 0).confidence_scores.length ≤ 1000 ∧
    (update_stats ⟨5, 0, List.replicate 1001 0⟩ 42 0).confidence_scores =
      (List.replicate 1001 (0 : ℤ) ++ [42]).drop 1 ∧
    (get_stats (update_stats initStats 80 0)).avg_confidence =
      round2 (listMean (update_stats initStats 80 0).confidence_scores) ∧
    (get_stats (update_stats (update_stats (update_stats initStats 80 1) 90 2)
      70 3)).avg_confidence = 80 ∧
    (get_stats (update_stats (update_stats (update_stats initStats 80 1) 90 2)
      70 3)).total_predictions = 3 :=
  ⟨c9_stats_invariant.1 (engine7 (1 / 2)) exampleRaw none 0,
   c9_stats_invariant.2.1 initStats 80 0,
   c9_stats_invariant.2.2.1 initStats 80 0 (by decide),
   c9_stats_invariant.2.2.2.1 ⟨5, 0, List.replicate 1001 0⟩ 42 0
     (by rw [List.length_append, List.length_replicate]; norm_num),
   c9_stats_invariant.2.2.2.2.1 (update_stats initStats 80 0) (by decide),
   (c9_stats_invariant.2.2.2.2.2 1 2 3).1,
   (c9_stats_invariant.2.2.2.2.2 1 2 3).2⟩

/-- On an engine with no anomaly detector, every successful `predict`
returns anomaly score 0 and leaves the detector unconfigured. -/
theorem predict_anomaly_map (e : Engine) (hdet : e.anomalyDetector = none)
    (r : RawFeatures) (h : Option (List RawFeatures)) (t : ℚ) :
    ∀ p ∈ predict e r h t, p.1.anomaly_score = 0 ∧ p.2.anomalyDetector = none := by
  obtain ⟨m, sc, ad, st⟩ := e
  cases ad with
  | some det => simp at hdet
  | none =>
    intro p hp
    rw [Option.mem_def] at hp
    cases sc with
    | none =>
        cases hA : TorchModel.apply m (add_derived_features (process_features r)) with
        | none => simp [predict, hA] at hp
        | some logit =>
            cases hI : calc_feature_importance m
                (add_derived_features (process_features r)) with
            | none => simp [predict, hA, hI] at hp
            | some imp =>
                simp only [predict, hA, hI, Option.some.injEq] at hp
                subst hp
                exact ⟨rfl, rfl⟩
    | some tr =>
        cases hA : TorchModel.apply m (tr (add_derived_features (process_features r))) with
        | none => simp [predict, hA] at hp
        | some logit =>
            cases hI : calc_feature_importance m
                (tr (add_derived_features (process_features r))) with
            | none => simp [predict, hA, hI] at hp
            | some imp =>
                simp only [predict, hA, hI, Option.some.injEq] at hp
                subst hp
                exact ⟨rfl, rfl⟩

/-- C10: the engine never configures an anomaly detector: `__init__` sets it
to `None` and no operation assigns one, so every prediction an engine ever
returns carries anomaly score exactly 0. -/
theorem c10_anomaly_always_zero :
    (∀ (run : List ℚ → ℚ) (grad : List ℚ → List ℚ),
      (initEngine run grad).anomalyDetector = none) ∧
    (∀ (e : Engine), e.anomalyDetector = none →
      ∀ inputs : List (RawFeatures × Option (List RawFeatures) × ℚ),
        (run_all e inputs).all (fun res => decide (res.anomaly_score = 0)) = true) := by
  refine ⟨fun run grad => rfl, ?_⟩
  intro e hdet inputs
  induction inputs generalizing e with
  | nil => rfl
  | cons i rest ih =>
      obtain ⟨r, h, t⟩ := i
      rw [run_all]
      cases hp : predict e r h t with
      | none => exact ih e hdet
      | some p =>
          obtain ⟨res, e2⟩ := p
          obtain ⟨hres, hdet2⟩ :=
            predict_anomaly_map e hdet r h t (res, e2) (Option.mem_def.mpr hp)
          simp only [List.all_cons, ih e2 hdet2, Bool.and_true, decide_eq_true_eq]
          exact hres

/-- C10 witness: a fresh engine with no detector run on one input yields
only zero anomaly scores. -/
theorem c10_anomaly_always_zero_witness :
    (initEngine (fun _ => 1 / 2) (fun _ => [])).anomalyDetector = none ∧
    (run_all (engine7 (1 / 2)) [(exampleRaw, none, 0)]).all
      (fun res => decide (res.anomaly_score = 0)) = true :=
  ⟨c10_anomaly_always_zero.1 (fun _ => 1 / 2) (fun _ => []),
   c10_anomaly_always_zero.2 (engine7 (1 / 2)) rfl [(exampleRaw, none, 0)]⟩

end Parachain
